import Mathlib

/-!
Verification of the PMOD color-sensor "Simon says" firmware core
(`main.c`): the color classifier `Detect_Color`, the sequence matcher
`CheckPattern` with its static cursor and failure counter, the random
pattern generator `Generate_Random_Pattern`, and the pattern-handling
part of the top-level control loop.

Embedding notes.
* `Color_t` mirrors the C enum `{COLOR_GREEN = 0, COLOR_RED = 1,
  COLOR_YELLOW = 2, COLOR_UNKNOWN = 3}`.
* `Detect_Color` takes `uint16_t` arguments.  In the comparisons
  `G > R + 3000` etc., C's usual arithmetic conversions promote both
  operands to (32-bit) `int`; the sums are at most 65535 + 6000, far
  below 2^31, so the comparisons are exact.  We therefore embed the
  arguments as `Nat` with exact arithmetic.
* `CheckPattern` in C reads the global array `pattern[]` and mutates
  the static locals `index` and `failCount`; it contains no store to
  `pattern[]`, so the embedding takes the pattern as a read-only input
  and returns the C `int` result code together with the new
  `MatcherState`.
* `rand()` is modelled as an arbitrary stream `Nat → Nat` of
  non-negative values, indexed by draw position.
-/

/-- The C enum `Color_t` from `main.c`. -/
inductive Color_t : Type
  | green
  | red
  | yellow
  | unknown
deriving DecidableEq, Repr

open Color_t

/-- `#define PATTERN_LENGTH 4` in `main.c`. -/
def PATTERN_LENGTH : Nat := 4

/-- `Detect_Color(uint16_t R, uint16_t G, uint16_t B)` from `main.c`.
The `uint16_t` operands are promoted to `int` before the additions and
comparisons, so the arithmetic is exact; `0x2000 = 8192` and
`0x3000 = 12288`.  The `printf`/LED calls in the C body are
side-effect-only and have no bearing on the returned value. -/
def Detect_Color (R G B : Nat) : Color_t :=
  if G > R + 3000 ∧ G > B + 3000 then green
  else if R > 0x2000 ∧ G > 0x2000 ∧ B < 0x3000 then yellow
  else if R > G + 6000 ∧ R > B + 6000 then red
  else unknown

/-- Hypothetical foil for the numerical claim: the classifier that
would result if the sums `R + 3000` etc. were computed modulo 2^16
(16-bit wraparound) instead of in promoted `int` arithmetic.  This is
NOT the code's behaviour; it exists only to be contrasted with
`Detect_Color`. -/
def Detect_Color_wrap16 (R G B : Nat) : Color_t :=
  if G > (R + 3000) % 65536 ∧ G > (B + 3000) % 65536 then green
  else if R > 0x2000 ∧ G > 0x2000 ∧ B < 0x3000 then yellow
  else if R > (G + 6000) % 65536 ∧ R > (B + 6000) % 65536 then red
  else unknown

/-- Spec-side classifier, written from the spec's priority list:
1. Green: `G > R + 3000 AND G > B + 3000`;
2. Yellow: `R > 8192 AND G > 8192 AND B < 12288`;
3. Red: `R > G + 6000 AND R > B + 6000`;
4. otherwise Unknown.
To be compared with `Detect_Color`, which is embedded from the code. -/
def classify_spec (R G B : Nat) : Color_t :=
  if G > R + 3000 ∧ G > B + 3000 then green
  else if R > 8192 ∧ G > 8192 ∧ B < 12288 then yellow
  else if R > G + 6000 ∧ R > B + 6000 then red
  else unknown

/-- The matcher's mutable state: the static locals `index` (the
cursor) and `failCount` of `CheckPattern` in `main.c`; both start
at 0. -/
structure MatcherState where
  index : Nat
  failCount : Nat
deriving DecidableEq, Repr

/-- Result code `-1` of `CheckPattern`: ignore (noise / soft failure). -/
def IGNORE : Int := -1

/-- Result code `1` of `CheckPattern`: correct step. -/
def STEP_CORRECT : Int := 1

/-- Result code `2` of `CheckPattern`: full pattern matched. -/
def SEQUENCE_COMPLETE : Int := 2

/-- Result code `0` of `CheckPattern`: full failure, restart needed. -/
def HARD_FAIL : Int := 0

/-- `CheckPattern(Color_t detected)` from `main.c`.  The global
`pattern[]` array is a read-only input (the C body never writes to
it); the static locals are threaded through `MatcherState`.  Returns
the C `int` result code and the state after the call.  In the C body
`index++` and `failCount++` precede the threshold tests, so the tests
see `s.index + 1` and `s.failCount + 1`. -/
def CheckPattern (pat : List Color_t) (s : MatcherState) (detected : Color_t) :
    Int × MatcherState :=
  if detected = unknown then
    (IGNORE, s)
  else if detected = pat.getD s.index unknown then
    if s.index + 1 = PATTERN_LENGTH then
      (SEQUENCE_COMPLETE, ⟨0, 0⟩)
    else
      (STEP_CORRECT, ⟨s.index + 1, 0⟩)
  else
    if s.failCount + 1 ≥ 2 then
      (HARD_FAIL, ⟨0, 0⟩)
    else
      (IGNORE, ⟨s.index, s.failCount + 1⟩)

/-- Feed a list of observed symbols through `CheckPattern` one call at
a time, collecting the result codes and the final state. -/
def runPattern (pat : List Color_t) (s : MatcherState) :
    List Color_t → List Int × MatcherState
  | [] => ([], s)
  | o :: rest =>
    let r := CheckPattern pat s o
    let rs := runPattern pat r.2 rest
    (r.1 :: rs.1, rs.2)

/-- The C assignment `pattern[i] = rand() % 3` stores the enum with
numeric value `rand() % 3`: 0 = green, 1 = red, 2 = yellow. -/
def colorOfCode (n : Nat) : Color_t :=
  match n with
  | 0 => green
  | 1 => red
  | 2 => yellow
  | _ => unknown

/-- `Generate_Random_Pattern` from `main.c`: fills the 4-entry pattern
with `rand() % 3` draws, taking the random source as a stream of draw
values. -/
def Generate_Random_Pattern (randSrc : Nat → Nat) : List Color_t :=
  (List.range PATTERN_LENGTH).map (fun i => colorOfCode (randSrc i % 3))

/-- The matcher invariant: the cursor is a valid index into the
4-entry pattern and the failure counter is below the hard-fail
threshold 2. -/
def MatcherInv (s : MatcherState) : Prop :=
  s.index < PATTERN_LENGTH ∧ s.failCount < 2

instance (s : MatcherState) : Decidable (MatcherInv s) := by
  unfold MatcherInv
  infer_instance

/-- The state of the top-level control loop in `main`: the global
`pattern[]`, the matcher's static locals, and the position reached in
the random draw stream. -/
structure SystemState where
  pattern : List Color_t
  matcher : MatcherState
  rng : Nat
deriving DecidableEq, Repr

/-- The pattern-relevant part of one iteration of the `while(1)` loop
in `main`: feed the detected color to `CheckPattern`; on result 2
(`ACCESS GRANTED`) call `Generate_Random_Pattern` consuming 4 fresh
draws; on results 1, 0 and -1 the pattern is only shown or left alone,
never written.  LED, motor and delay calls are side-effect-only. -/
def mainStep (randSrc : Nat → Nat) (st : SystemState) (detected : Color_t) :
    Int × SystemState :=
  let r := CheckPattern st.pattern st.matcher detected
  if r.1 = SEQUENCE_COMPLETE then
    (r.1, ⟨Generate_Random_Pattern (fun i => randSrc (st.rng + i)), r.2,
           st.rng + PATTERN_LENGTH⟩)
  else
    (r.1, ⟨st.pattern, r.2, st.rng⟩)

/-- Program start in `main`: `Generate_Random_Pattern(); Show_Pattern();`
before the loop, with the matcher statics at their initial value 0. -/
def mainInit (randSrc : Nat → Nat) : SystemState :=
  ⟨Generate_Random_Pattern randSrc, ⟨0, 0⟩, PATTERN_LENGTH⟩

/-- Helper: for `m < 3`, `colorOfCode m` is one of green/red/yellow
and never unknown. -/
theorem colorOfCode_lt_three (m : Nat) (hm : m < 3) :
    (colorOfCode m = green ∨ colorOfCode m = red ∨ colorOfCode m = yellow) ∧
    colorOfCode m ≠ unknown := by
  interval_cases m <;> decide

/-- Helper: the generated pattern written out position by position. -/
theorem generate_pattern_explicit (randSrc : Nat → Nat) :
    Generate_Random_Pattern randSrc =
      [colorOfCode (randSrc 0 % 3), colorOfCode (randSrc 1 % 3),
       colorOfCode (randSrc 2 % 3), colorOfCode (randSrc 3 % 3)] := by
  rfl

/-- Helper: any number of Unknown observations is ignored and leaves
the state unchanged. -/
theorem runPattern_unknown_replicate (pat : List Color_t) (s : MatcherState) :
    ∀ n : Nat, runPattern pat s (List.replicate n unknown) =
      (List.replicate n IGNORE, s)
  | 0 => by simp [runPattern]
  | n + 1 => by
    simp [List.replicate, runPattern, CheckPattern,
      runPattern_unknown_replicate pat s n]

/-- C1: for every (R, G, B) of unsigned 16-bit values, `Detect_Color`
returns the first matching rule of the fixed priority list
(Green, then Yellow, then Red, else Unknown) — it agrees with the
spec-side `classify_spec` — and whenever the Green predicate holds the
result is Green regardless of the other predicates. -/
theorem detect_color_priority :
    (∀ R G B : Nat, R < 65536 → G < 65536 → B < 65536 →
      Detect_Color R G B = classify_spec R G B) ∧
    (∀ R G B : Nat, R < 65536 → G < 65536 → B < 65536 →
      G > R + 3000 → G > B + 3000 → Detect_Color R G B = green) := by
  constructor
  · intro R G B _ _ _
    rfl
  · intro R G B _ _ _ h1 h2
    unfold Detect_Color
    rw [if_pos ⟨h1, h2⟩]

/-- Witness for C1 at (20000, 30000, 0), a point where the Green and
Yellow predicates both hold and the result is Green. -/
theorem detect_color_priority_witness :
    Detect_Color 20000 30000 0 = classify_spec 20000 30000 0 ∧
    Detect_Color 20000 30000 0 = green ∧
    (20000 > 8192 ∧ 30000 > 8192 ∧ 0 < 12288) :=
  ⟨detect_color_priority.1 20000 30000 0 (by decide) (by decide) (by decide),
   detect_color_priority.2 20000 30000 0 (by decide) (by decide) (by decide)
     (by decide) (by decide),
   by decide⟩

/-- C2: for every matcher state with cursor < 4 and failCount < 2 and
every observed symbol, `CheckPattern` follows the transition table
exactly: Unknown is ignored with no state change; a match zeroes the
failure counter and advances the cursor, completing (and resetting the
cursor) exactly when the incremented cursor reaches the length 4;
a mismatch increments the failure counter, hard-failing (and resetting
the state to (0,0)) exactly when it reaches 2, and otherwise ignoring
with the cursor unchanged. -/
theorem checkpattern_transition_table (pat : List Color_t) (s : MatcherState)
    (obs : Color_t) (hcur : s.index < PATTERN_LENGTH) (hfail : s.failCount < 2)
    (htgt : pat.getD s.index unknown ≠ unknown) :
    (obs = unknown → CheckPattern pat s obs = (IGNORE, s)) ∧
    (obs = pat.getD s.index unknown →
      (s.index + 1 = PATTERN_LENGTH →
        CheckPattern pat s obs = (SEQUENCE_COMPLETE, ⟨0, 0⟩)) ∧
      (s.index + 1 ≠ PATTERN_LENGTH →
        CheckPattern pat s obs = (STEP_CORRECT, ⟨s.index + 1, 0⟩))) ∧
    (obs ≠ unknown → obs ≠ pat.getD s.index unknown →
      (s.failCount + 1 ≥ 2 → CheckPattern pat s obs = (HARD_FAIL, ⟨0, 0⟩)) ∧
      (s.failCount + 1 < 2 →
        CheckPattern pat s obs = (IGNORE, ⟨s.index, s.failCount + 1⟩))) := by
  refine ⟨?_, ?_, ?_⟩
  · intro h
    unfold CheckPattern
    rw [if_pos h]
  · intro h
    have hne : obs ≠ unknown := by
      rw [h]
      exact htgt
    constructor <;> intro hlen
    · unfold CheckPattern
      rw [if_neg hne, if_pos h, if_pos hlen]
    · unfold CheckPattern
      rw [if_neg hne, if_pos h, if_neg hlen]
  · intro h1 h2
    constructor <;> intro hge
    · unfold CheckPattern
      rw [if_neg h1, if_neg h2, if_pos hge]
    · unfold CheckPattern
      rw [if_neg h1, if_neg h2, if_neg (Nat.not_le_of_lt hge)]

/-- Witness for C2: a correct middle step on a concrete pattern. -/
theorem checkpattern_transition_table_witness :
    CheckPattern [green, red, yellow, green] ⟨1, 0⟩ red =
      (STEP_CORRECT, ⟨2, 0⟩) :=
  ((checkpattern_transition_table [green, red, yellow, green] ⟨1, 0⟩ red
      (by decide) (by decide) (by decide)).2.1 (by decide)).2 (by decide)

/-- C3: for every length-4 target over {green, red, yellow}, feeding
the four target symbols in order from the fresh state (0,0) yields
step-correct three times then sequence-complete, with the cursor reset
to 0 afterwards. -/
theorem checkpattern_exact_sequence (a b c d : Color_t)
    (ha : a = green ∨ a = red ∨ a = yellow)
    (hb : b = green ∨ b = red ∨ b = yellow)
    (hc : c = green ∨ c = red ∨ c = yellow)
    (hd : d = green ∨ d = red ∨ d = yellow) :
    runPattern [a, b, c, d] ⟨0, 0⟩ [a, b, c, d] =
      ([STEP_CORRECT, STEP_CORRECT, STEP_CORRECT, SEQUENCE_COMPLETE],
       ⟨0, 0⟩) := by
  rcases ha with rfl | rfl | rfl <;> rcases hb with rfl | rfl | rfl <;>
    rcases hc with rfl | rfl | rfl <;> rcases hd with rfl | rfl | rfl <;> decide

/-- Witness for C3 on the concrete target green, red, yellow, green. -/
theorem checkpattern_exact_sequence_witness :
    runPattern [green, red, yellow, green] ⟨0, 0⟩ [green, red, yellow, green] =
      ([STEP_CORRECT, STEP_CORRECT, STEP_CORRECT, SEQUENCE_COMPLETE],
       ⟨0, 0⟩) :=
  checkpattern_exact_sequence green red yellow green (Or.inl rfl)
    (Or.inr (Or.inl rfl)) (Or.inr (Or.inr rfl)) (Or.inl rfl)

/-- C4: from any state with failCount = 0 and cursor < 4, two
consecutive non-Unknown symbols that both differ from the expected
target symbol yield Ignore then HardFail, and the state is reset
to (0,0). -/
theorem checkpattern_two_misses_hardfail (pat : List Color_t) (i : Nat)
    (x y : Color_t) (hi : i < PATTERN_LENGTH)
    (hx : x ≠ unknown) (hxw : x ≠ pat.getD i unknown)
    (hy : y ≠ unknown) (hyw : y ≠ pat.getD i unknown) :
    runPattern pat ⟨i, 0⟩ [x, y] = ([IGNORE, HARD_FAIL], ⟨0, 0⟩) := by
  have h1 : CheckPattern pat ⟨i, 0⟩ x = (IGNORE, ⟨i, 1⟩) := by
    unfold CheckPattern
    rw [if_neg hx, if_neg hxw, if_neg (by decide : ¬ (0 + 1 ≥ 2))]
  have h2 : CheckPattern pat ⟨i, 1⟩ y = (HARD_FAIL, ⟨0, 0⟩) := by
    unfold CheckPattern
    rw [if_neg hy, if_neg hyw, if_pos (by decide : 1 + 1 ≥ 2)]
  simp [runPattern, h1, h2]

/-- Witness for C4: two wrong reads at cursor 2 of a concrete
pattern. -/
theorem checkpattern_two_misses_hardfail_witness :
    runPattern [green, red, yellow, green] ⟨2, 0⟩ [green, red] =
      ([IGNORE, HARD_FAIL], ⟨0, 0⟩) :=
  checkpattern_two_misses_hardfail [green, red, yellow, green] 2 green red
    (by decide) (by decide) (by decide) (by decide) (by decide)

/-- Counterexample to C5 as stated: at cursor 3 (which satisfies
cursor < 4), a wrong symbol followed by the expected symbol yields
Ignore then SequenceComplete — not StepCorrect — and the cursor ends
at 0, not at cursor + 1 = 4. -/
theorem checkpattern_debounce_counterexample :
    ¬ (runPattern [green, green, green, green] ⟨3, 0⟩ [red, green] =
        ([IGNORE, STEP_CORRECT], ⟨3 + 1, 0⟩)) ∧
    runPattern [green, green, green, green] ⟨3, 0⟩ [red, green] =
      ([IGNORE, SEQUENCE_COMPLETE], ⟨0, 0⟩) := by
  decide

/-- C5 (amended): from any state with failCount = 0 and
cursor + 1 < 4, for a target whose expected symbol at the cursor is
not Unknown, one non-Unknown wrong symbol followed by the expected
symbol yields Ignore then StepCorrect, and the cursor ends at the
original cursor plus one (the single miss does not affect the
cursor). -/
theorem checkpattern_debounce (pat : List Color_t) (i : Nat) (x : Color_t)
    (hi : i + 1 < PATTERN_LENGTH)
    (hx : x ≠ unknown) (hxw : x ≠ pat.getD i unknown)
    (htgt : pat.getD i unknown ≠ unknown) :
    runPattern pat ⟨i, 0⟩ [x, pat.getD i unknown] =
      ([IGNORE, STEP_CORRECT], ⟨i + 1, 0⟩) := by
  have h1 : CheckPattern pat ⟨i, 0⟩ x = (IGNORE, ⟨i, 1⟩) := by
    unfold CheckPattern
    rw [if_neg hx, if_neg hxw, if_neg (by decide : ¬ (0 + 1 ≥ 2))]
  have h2 : CheckPattern pat ⟨i, 1⟩ (pat.getD i unknown) =
      (STEP_CORRECT, ⟨i + 1, 0⟩) := by
    unfold CheckPattern
    rw [if_neg htgt, if_pos rfl, if_neg (Nat.ne_of_lt hi)]
  simp only [runPattern, h1, h2]

/-- Witness for the amended C5: a miss then the expected symbol at
cursor 1 of a concrete pattern. -/
theorem checkpattern_debounce_witness :
    runPattern [green, red, yellow, green] ⟨1, 0⟩ [yellow, red] =
      ([IGNORE, STEP_CORRECT], ⟨2, 0⟩) :=
  checkpattern_debounce [green, red, yellow, green] 1 yellow
    (by decide) (by decide) (by decide) (by decide)

/-- C6: for every matcher state and every n ≥ 1, feeding n consecutive
Unknown observations returns Ignore on every call and leaves cursor
and failCount exactly unchanged. -/
theorem checkpattern_unknown_idempotent (pat : List Color_t) (s : MatcherState)
    (n : Nat) (hn : 1 ≤ n) :
    runPattern pat s (List.replicate n unknown) =
      (List.replicate n IGNORE, s) :=
  runPattern_unknown_replicate pat s n

/-- Witness for C6: three Unknown reads from the state (2, 1). -/
theorem checkpattern_unknown_idempotent_witness :
    runPattern [green, red, yellow, green] ⟨2, 1⟩ (List.replicate 3 unknown) =
      (List.replicate 3 IGNORE, ⟨2, 1⟩) :=
  checkpattern_unknown_idempotent [green, red, yellow, green] ⟨2, 1⟩ 3
    (by decide)

/-- C7: the predicate (cursor < 4 and failCount < 2) holds in the
initial state (0,0) and is preserved by every call to `CheckPattern`
on any pattern and observation, so every externally observable state
has a valid cursor and a failure counter below the threshold 2. -/
theorem matcher_invariant :
    MatcherInv ⟨0, 0⟩ ∧
    ∀ (pat : List Color_t) (s : MatcherState) (obs : Color_t),
      MatcherInv s → MatcherInv (CheckPattern pat s obs).2 := by
  constructor
  · decide
  · intro pat s obs h
    unfold MatcherInv PATTERN_LENGTH at h
    unfold CheckPattern MatcherInv PATTERN_LENGTH
    split_ifs with hu hm hl hf <;> dsimp only <;> omega

/-- Witness for C7: the invariant after one call from the state
(2, 1). -/
theorem matcher_invariant_witness :
    MatcherInv (CheckPattern [green, red, yellow, green] ⟨2, 1⟩ green).2 :=
  matcher_invariant.2 [green, red, yellow, green] ⟨2, 1⟩ green (by decide)

/-- C8: for every random source, every one of the 4 positions of the
pattern produced by `Generate_Random_Pattern` holds one of
green/red/yellow and never unknown. -/
theorem generate_random_pattern_no_unknown (randSrc : Nat → Nat) (k : Nat)
    (hk : k < PATTERN_LENGTH) :
    ((Generate_Random_Pattern randSrc).getD k unknown = green ∨
     (Generate_Random_Pattern randSrc).getD k unknown = red ∨
     (Generate_Random_Pattern randSrc).getD k unknown = yellow) ∧
    (Generate_Random_Pattern randSrc).getD k unknown ≠ unknown := by
  rw [generate_pattern_explicit]
  unfold PATTERN_LENGTH at hk
  interval_cases k <;>
    exact colorOfCode_lt_three _ (Nat.mod_lt _ (by decide))

/-- Witness for C8 at position 2 of a concrete random source. -/
theorem generate_random_pattern_no_unknown_witness :
    ((Generate_Random_Pattern (fun i => i + 7)).getD 2 unknown = green ∨
     (Generate_Random_Pattern (fun i => i + 7)).getD 2 unknown = red ∨
     (Generate_Random_Pattern (fun i => i + 7)).getD 2 unknown = yellow) ∧
    (Generate_Random_Pattern (fun i => i + 7)).getD 2 unknown ≠ unknown :=
  generate_random_pattern_no_unknown (fun i => i + 7) 2 (by decide)

/-- C9: `CheckPattern` never modifies the pattern — in the top-level
loop the pattern is byte-for-byte unchanged on every outcome other
than SequenceComplete (in particular on HardFail, where it is only
re-shown), it is regenerated exactly on SequenceComplete, and it is
generated once at program start. -/
theorem pattern_only_regenerated_on_complete (randSrc : Nat → Nat)
    (st : SystemState) (detected : Color_t) :
    ((mainStep randSrc st detected).1 ≠ SEQUENCE_COMPLETE →
      (mainStep randSrc st detected).2.pattern = st.pattern) ∧
    ((mainStep randSrc st detected).1 = SEQUENCE_COMPLETE →
      (mainStep randSrc st detected).2.pattern =
        Generate_Random_Pattern (fun i => randSrc (st.rng + i))) ∧
    (mainInit randSrc).pattern = Generate_Random_Pattern randSrc := by
  refine ⟨?_, ?_, rfl⟩ <;> intro h <;>
    by_cases hc : (CheckPattern st.pattern st.matcher detected).1 =
        SEQUENCE_COMPLETE <;>
    simp [mainStep, hc] at h ⊢

/-- Witness for C9: a HardFail step leaves the concrete pattern
unchanged. -/
theorem pattern_only_regenerated_on_complete_witness :
    (mainStep (fun i => i)
        ⟨[green, red, yellow, green], ⟨3, 1⟩, 4⟩ red).2.pattern =
      [green, red, yellow, green] :=
  (pattern_only_regenerated_on_complete (fun i => i)
      ⟨[green, red, yellow, green], ⟨3, 1⟩, 4⟩ red).1 (by decide)

/-- C10: the classifier's comparisons use exact integer arithmetic
(C promotion of the uint16 operands), not arithmetic modulo 2^16:
`Detect_Color 65535 65535 0` is Yellow because `65535 > 65535 + 3000`
fails exactly, whereas the 16-bit-wraparound foil classifies the same
input as Green because `65535 > (65535 + 3000) % 65536 = 2999`. -/
theorem detect_color_exact_arithmetic :
    Detect_Color 65535 65535 0 = yellow ∧
    Detect_Color_wrap16 65535 65535 0 = green ∧
    ¬ 65535 > 65535 + 3000 ∧ 65535 > (65535 + 3000) % 65536 := by
  decide
